import Mathlib

/- Shallow embedding of the specifier-resolution and bulk-dispatch core of the
d365-form-helpers library (src/core/PrimaryControl.ts together with the
CheckTypes guards and the Provider factory).  JS runtime values are modelled
as far as the library observes them: their typeof kind, their truthiness, and,
for objects, the set of property names holding functions (the duck-typing
surface of the capability guards).  Host side effects (value writes, handler
attachments, warnings sent to the console sink) are recorded as traces. -/

namespace D365

/-- A JS runtime value as observed by this library: typeof kind, truthiness,
and for objects the names of the function-valued properties.  NaN and the
source text of functions are abstracted away (the library never inspects
either). -/
inductive JSValue where
  | undef
  | null
  | bool (b : Bool)
  | num (n : Int)
  | str (s : String)
  | fn
  | obj (methods : List String)
deriving DecidableEq, Repr

/-- JS falsiness: undefined, null, false, 0 and the empty string are falsy;
functions and objects are always truthy. -/
def JSValue.falsy : JSValue → Bool
  | .undef => true
  | .null => true
  | .bool b => !b
  | .num n => n == 0
  | .str s => s == ""
  | .fn => false
  | .obj _ => false

/-- JS string interpolation of a value, as used in the thrown Provider message
(function source text is abstracted to a fixed token). -/
def JSValue.render : JSValue → String
  | .undef => "undefined"
  | .null => "null"
  | .bool b => if b then "true" else "false"
  | .num n => toString n
  | .str s => s
  | .fn => "function"
  | .obj _ => "[object Object]"

/-- The test obj === null. -/
def JSValue.isNull : JSValue → Bool
  | .null => true
  | _ => false

/-- The test typeof obj === "object" (in JS, typeof null is "object"). -/
def JSValue.typeofObject : JSValue → Bool
  | .null => true
  | .obj _ => true
  | _ => false

/-- CheckTypes.ts isObject: typeof obj === "object" && obj !== null. -/
def isObject (v : JSValue) : Bool :=
  v.typeofObject && !(v.isNull)

/-- The test typeof (obj as any).m === "function": on an object, true exactly
when a function-valued property named m is present; on every non-object it is
false (property reads on primitives yield undefined; the guards only reach
this test behind an isObject conjunct). -/
def hasFnMethod (v : JSValue) (m : String) : Bool :=
  match v with
  | .obj ms => ms.contains m
  | _ => false

/-- CheckTypes.ts isAttribute: isObject plus a getAttributeType method. -/
def isAttribute (v : JSValue) : Bool :=
  isObject v && hasFnMethod v "getAttributeType"

/-- CheckTypes.ts isTabControl: isObject plus an addTabStateChange method. -/
def isTabControl (v : JSValue) : Bool :=
  isObject v && hasFnMethod v "addTabStateChange"

/-- CheckTypes.ts isControl: isObject plus a getControlType method. -/
def isControl (v : JSValue) : Bool :=
  isObject v && hasFnMethod v "getControlType"

/-- CheckTypes.ts isStandardControl: isObject plus a clearNotification
method. -/
def isStandardControl (v : JSValue) : Bool :=
  isObject v && hasFnMethod v "clearNotification"

/-- CheckTypes.ts isLookupControl: isObject plus an addOnLookupTagClick
method. -/
def isLookupControl (v : JSValue) : Bool :=
  isObject v && hasFnMethod v "addOnLookupTagClick"

/-- CheckTypes.ts isGridControl: isObject plus a getGrid method. -/
def isGridControl (v : JSValue) : Bool :=
  isObject v && hasFnMethod v "getGrid"

/-- CheckTypes.ts isIframeControl: isObject plus a getContentWindow method. -/
def isIframeControl (v : JSValue) : Bool :=
  isObject v && hasFnMethod v "getContentWindow"

/-- CheckTypes.ts isKbSearchControl: isObject plus an addOnPostSearch
method. -/
def isKbSearchControl (v : JSValue) : Bool :=
  isObject v && hasFnMethod v "addOnPostSearch"

/-- CheckTypes.ts isExecutionContext: isObject plus a getFormContext
method. -/
def isExecutionContext (v : JSValue) : Bool :=
  isObject v && hasFnMethod v "getFormContext"

/-- CheckTypes.ts isControlCanSetVisible: isControl plus a setVisible
method. -/
def isControlCanSetVisible (v : JSValue) : Bool :=
  isControl v && hasFnMethod v "setVisible"

/-- CheckTypes.ts isControlCanSetDisabled: isControl plus a setDisabled
method. -/
def isControlCanSetDisabled (v : JSValue) : Bool :=
  isControl v && hasFnMethod v "setDisabled"

/-- True for null and for every value whose typeof kind is not object: the
inputs the guards are required to reject uniformly. -/
def JSValue.isNonObject : JSValue → Bool
  | .obj _ => false
  | _ => true

/-- A lookup key for a named collection: a logical name or an ordinal
index. -/
inductive Key where
  | name (s : String)
  | idx (n : Nat)
deriving DecidableEq, Repr

/-- JS string interpolation of a key (as it appears in warning messages). -/
def Key.render : Key → String
  | .name s => s
  | .idx n => toString n

/-- JS falsiness of a key: index 0 and the empty-string name are falsy. -/
def Key.falsy : Key → Bool
  | .name s => s == ""
  | .idx n => n == 0

/-- Input shape of the read engine getObject: undefined, a single key, an
array of keys, or a matching delegate (the shapes of its TS union type). -/
inductive GetInput (α : Type) where
  | undef
  | key (k : Key)
  | arr (ks : List Key)
  | delegate (f : α → Bool)

/-- JS falsiness of a getObject-style input: undefined, index 0 and the
empty-string name are falsy; arrays and functions are always truthy. -/
def GetInput.falsy : GetInput α → Bool
  | .undef => true
  | .key k => k.falsy
  | .arr _ => false
  | .delegate _ => false

/-- An element of an array passed to the write/attach engines: a key or a
direct instance (the TS element type number | string | TInput). -/
inductive DElem (α : Type) where
  | key (k : Key)
  | inst (x : α)

/-- Input shape of the write/attach engines setToObject and addHandler:
undefined, a single key, a mixed array, a matching delegate, or a direct
instance. -/
inductive DInput (α : Type) where
  | undef
  | key (k : Key)
  | arr (es : List (DElem α))
  | delegate (f : α → Bool)
  | inst (x : α)

/-- JS falsiness of a setToObject-style input: undefined, index 0 and the
empty-string name are falsy; arrays, functions and object instances are
always truthy. -/
def DInput.falsy : DInput α → Bool
  | .undef => true
  | .key k => k.falsy
  | .arr _ => false
  | .delegate _ => false
  | .inst _ => false

/-- Result of the read engine getObject: null, a single item, or an array of
items (mirroring the TS return type TOutput | TOutput[] | null). -/
inductive GetResult (β : Type) where
  | nullR
  | one (b : β)
  | many (bs : List β)
deriving DecidableEq, Repr

/-- Trace of one addHandler run: the items the attach callback was invoked
on, in invocation order, and the messages sent to the warning sink, in
emission order. -/
structure HTrace (α : Type) where
  attached : List α
  warns : List String
deriving DecidableEq, Repr

/-- The warning emitted by addHandler on an undefined input
(PrimaryControl.ts line 148). -/
def warnUnsupportedInput (op : String) : String :=
  "[PrimaryControl - Warning] " ++ op ++ ": Unsupported input:"

/-- The warning emitted by the facade falsy-input checks
(for example PrimaryControl.ts line 847). -/
def warnUnsupported (op : String) : String :=
  "[PrimaryControl - Warning] " ++ op ++ ": Unsupported input type:"

/-- The warning emitted by addHandler when a scalar key does not resolve
(PrimaryControl.ts line 164); it carries both the operation name and the
unresolved key. -/
def warnNotFound (op : String) (k : Key) : String :=
  "[PrimaryControl - Warning] " ++ op ++ ": Attribute \"" ++ k.render ++ "\" not found."

/-- The warning emitted by addHandler when an input matches no known shape
(PrimaryControl.ts line 183); tyName is the typeof of the rejected input. -/
def warnUnhandled (op : String) (tyName : String) : String :=
  "[PrimaryControl - Warning] " ++ op ++ ": Unhandled input type (" ++ tyName ++ ")"

/-- PrimaryControl.ts getObject (lines 113 to 137).  falsy embeds the JS
truthiness test applied by the scalar branch's if-not-control check; the
array branch maps the resolver over the elements and filters out exactly the
null results. -/
def getObject (falsy : β → Bool) (resolver : Key → Option β)
    (resolverAll : (α → Bool) → List β) : GetInput α → GetResult β
  | .undef => .nullR
  | .arr ks => .many ((ks.map resolver).filterMap id)
  | .key k =>
    match resolver k with
    | none => .nullR
    | some b => if falsy b then .nullR else .one b
  | .delegate f => .many (resolverAll f)

/-- The scalar branch of setToObject (lines 93 to 98): the applier is invoked
exactly when the lookup result is falsy, with that falsy placeholder as its
first argument; a successful (truthy) lookup is skipped. -/
def setScalarStep (getter : Key → Option α) (v : V) (k : Key) : List (Option α × V) :=
  match getter k with
  | some _ => []
  | none => [(none, v)]

/-- The direct-instance branch of setToObject (lines 107 to 110): the applier
is invoked exactly when the capability guard accepts the instance; a rejected
instance is skipped silently. -/
def setInstStep (isValid : α → Bool) (v : V) (x : α) : List (Option α × V) :=
  if isValid x then [(some x, v)] else []

/-- PrimaryControl.ts setToObject (lines 76 to 111).  The result is the list
of (item, value) pairs the valueApplier was invoked on, in invocation order;
none stands for the null placeholder of a failed scalar lookup.  The array
branch recurses per element; since array elements are keys or instances, the
recursion lands in the scalar or instance branch, inlined here.  The function
body contains no call to the warning sink. -/
def setToObject (getter : Key → Option α) (getterAll : (α → Bool) → List α)
    (isValid : α → Bool) (input : DInput α) (v : V) : List (Option α × V) :=
  match input with
  | .undef => []
  | .arr es => es.flatMap (fun e =>
      match e with
      | .key k => setScalarStep getter v k
      | .inst x => setInstStep isValid v x)
  | .key k => setScalarStep getter v k
  | .delegate f => (getterAll f).map (fun c => (some c, v))
  | .inst x => setInstStep isValid v x

/-- The scalar branch of addHandler (lines 159 to 167): attach on success,
one not-found warning on failure. -/
def addScalarStep (get : Key → Option α) (op : String) (k : Key) : HTrace α :=
  match get k with
  | some item => ⟨[item], []⟩
  | none => ⟨[], [warnNotFound op k]⟩

/-- The direct-instance branch of addHandler (lines 178 to 183): attach when
the capability guard accepts the instance, otherwise one unhandled-input
warning (the rejected input is an object, so its typeof is "object"). -/
def addInstStep (isValid : α → Bool) (op : String) (x : α) : HTrace α :=
  if isValid x then ⟨[x], []⟩ else ⟨[], [warnUnhandled op "object"]⟩

/-- PrimaryControl.ts addHandler (lines 139 to 184).  The result records the
items the apply callback was invoked on and the warnings emitted, each in
order.  The array branch recurses per element; since array elements are keys
or instances, the recursion lands in the scalar or instance branch, inlined
here. -/
def addHandler (get : Key → Option α) (getDelegate : (α → Bool) → List α)
    (isValid : α → Bool) (op : String) : DInput α → HTrace α
  | .undef => ⟨[], [warnUnsupportedInput op]⟩
  | .arr es => es.foldl (fun acc e =>
      let t := match e with
        | .key k => addScalarStep get op k
        | .inst x => addInstStep isValid op x
      ⟨acc.attached ++ t.attached, acc.warns ++ t.warns⟩) ⟨[], []⟩
  | .key k => addScalarStep get op k
  | .delegate f => ⟨getDelegate f, []⟩
  | .inst x => addInstStep isValid op x

/-- A host form attribute: its logical name, its current value, and the
function-valued properties it exposes (the duck-typing surface seen by the
guards). -/
structure Attr where
  name : String
  value : JSValue
  methods : List String
deriving DecidableEq, Repr

/-- The attribute handle as the duck-typed guards see it: a non-null object
exposing its methods. -/
def Attr.toJS (a : Attr) : JSValue := .obj a.methods

/-- A host form control: its name and the function-valued properties it
exposes. -/
structure Ctrl where
  name : String
  methods : List String
deriving DecidableEq, Repr

/-- The control handle as the duck-typed guards see it. -/
def Ctrl.toJS (c : Ctrl) : JSValue := .obj c.methods

/-- The host form model: its ordered attribute and control collections. -/
structure Form where
  attrs : List Attr
  ctrls : List Ctrl
deriving DecidableEq, Repr

/-- The host single-lookup accessor formContext.getAttribute(key): by logical
name or by ordinal position; null when nothing is found. -/
def Form.getAttrByKey (fm : Form) : Key → Option Attr
  | .name s => fm.attrs.find? (fun a => a.name == s)
  | .idx n => fm.attrs[n]?

/-- The host predicate-lookup accessor formContext.getAttribute(delegate):
the attributes satisfying the delegate, in collection order. -/
def Form.getAttrsByPred (fm : Form) (f : Attr → Bool) : List Attr :=
  fm.attrs.filter f

/-- The host single-lookup accessor formContext.getControl(key). -/
def Form.getCtrlByKey (fm : Form) : Key → Option Ctrl
  | .name s => fm.ctrls.find? (fun c => c.name == s)
  | .idx n => fm.ctrls[n]?

/-- The host predicate-lookup accessor formContext.getControl(delegate). -/
def Form.getCtrlsByPred (fm : Form) (f : Ctrl → Bool) : List Ctrl :=
  fm.ctrls.filter f

/-- PrimaryControl.getAttribute (lines 199 to 208): getObject bound to the
host attribute accessors.  Attribute handles are objects, hence always
truthy, so the scalar branch's truthiness test is constantly false on
them. -/
def getAttribute (fm : Form) (input : GetInput Attr) : GetResult Attr :=
  getObject (fun _ => false) fm.getAttrByKey fm.getAttrsByPred input

/-- The scalar overload view of getAttribute (TS return type T | null), as
passed to the engines as their single-item getter. -/
def getAttributeOne (fm : Form) (k : Key) : Option Attr :=
  match getAttribute fm (.key k) with
  | .one a => some a
  | _ => none

/-- The delegate overload view of getAttribute (TS return type T[]), as
passed to the engines as their many-items getter. -/
def getAttributeMany (fm : Form) (f : Attr → Bool) : List Attr :=
  match getAttribute fm (.delegate f) with
  | .many xs => xs
  | _ => []

/-- PrimaryControl.getControl (lines 219 to 228): getObject bound to the host
control accessors. -/
def getControl (fm : Form) (input : GetInput Ctrl) : GetResult Ctrl :=
  getObject (fun _ => false) fm.getCtrlByKey fm.getCtrlsByPred input

/-- The scalar overload view of getControl. -/
def getControlOne (fm : Form) (k : Key) : Option Ctrl :=
  match getControl fm (.key k) with
  | .one c => some c
  | _ => none

/-- The delegate overload view of getControl. -/
def getControlMany (fm : Form) (f : Ctrl → Bool) : List Ctrl :=
  match getControl fm (.delegate f) with
  | .many xs => xs
  | _ => []

/-- The scalar resolver of getAttributeValue (line 853):
formContext.getAttribute(input)?.getValue() ?? null.  A missing attribute or
a nullish current value collapses to null; every other value, falsy ones
included, is passed through. -/
def valueResolver (fm : Form) (k : Key) : Option JSValue :=
  match fm.getAttrByKey k with
  | none => none
  | some a =>
    match a.value with
    | .undef => none
    | .null => none
    | v => some v

/-- The delegate resolver of getAttributeValue (line 854): the current values
of the matching attributes, with no nullish collapse. -/
def valueResolverAll (fm : Form) (f : Attr → Bool) : List JSValue :=
  (fm.getAttrsByPred f).map (fun a => a.value)

/-- PrimaryControl.getAttributeValue (lines 845 to 856): a falsy input is
warned about and answered with null; otherwise getObject runs with JS
truthiness as the scalar branch's test, since the resolved values are raw
attribute values.  The first component is the list of emitted warnings. -/
def getAttributeValue (fm : Form) (input : GetInput Attr) :
    List String × GetResult JSValue :=
  if input.falsy then
    ([warnUnsupported "getAttributeValue"], .nullR)
  else
    ([], getObject JSValue.falsy (valueResolver fm) (valueResolverAll fm) input)

/-- The capability guard setAttributeValue and the requirement-level setters
pass to setToObject: CheckTypes.ts isAttribute applied to the attribute
handle. -/
def attrIsAttribute (a : Attr) : Bool := isAttribute a.toJS

/-- PrimaryControl.setAttributeValue (lines 883 to 897): a falsy input is
warned about (with a message naming getAttributeValue, as in the source) and
skipped; otherwise setToObject runs with the wrapper getters, the setValue
applier and the isAttribute guard.  The second component is the applier
invocation trace. -/
def setAttributeValue (fm : Form) (input : DInput Attr) (v : JSValue) :
    List String × List (Option Attr × JSValue) :=
  if input.falsy then
    ([warnUnsupported "getAttributeValue"], [])
  else
    ([], setToObject (getAttributeOne fm) (getAttributeMany fm) attrIsAttribute input v)

/-- PrimaryControl.setRequiredLevel (lines 924 to 938). -/
def setRequiredLevel (fm : Form) (input : DInput Attr) (lvl : String) :
    List String × List (Option Attr × String) :=
  if input.falsy then
    ([warnUnsupported "setRequiredLevel"], [])
  else
    ([], setToObject (getAttributeOne fm) (getAttributeMany fm) attrIsAttribute input lvl)

/-- PrimaryControl.setOptional (lines 962 to 978): setRequiredLevel fixed to
the level none. -/
def setOptional (fm : Form) (input : DInput Attr) :
    List String × List (Option Attr × String) :=
  if input.falsy then
    ([warnUnsupported "setOptional"], [])
  else
    ([], setToObject (getAttributeOne fm) (getAttributeMany fm) attrIsAttribute input "none")

/-- PrimaryControl.setRecommended (lines 1002 to 1018). -/
def setRecommended (fm : Form) (input : DInput Attr) :
    List String × List (Option Attr × String) :=
  if input.falsy then
    ([warnUnsupported "setRecommended"], [])
  else
    ([], setToObject (getAttributeOne fm) (getAttributeMany fm) attrIsAttribute input "recommended")

/-- PrimaryControl.setMandatory (lines 1042 to 1058). -/
def setMandatory (fm : Form) (input : DInput Attr) :
    List String × List (Option Attr × String) :=
  if input.falsy then
    ([warnUnsupported "setMandatory"], [])
  else
    ([], setToObject (getAttributeOne fm) (getAttributeMany fm) attrIsAttribute input "required")

/-- The capability guard of setVisible: isControlCanSetVisible on the control
handle. -/
def ctrlCanSetVisible (c : Ctrl) : Bool := isControlCanSetVisible c.toJS

/-- The capability guard of setDisabled. -/
def ctrlCanSetDisabled (c : Ctrl) : Bool := isControlCanSetDisabled c.toJS

/-- PrimaryControl.setVisible (lines 1084 to 1098). -/
def setVisible (fm : Form) (input : DInput Ctrl) (b : Bool) :
    List String × List (Option Ctrl × Bool) :=
  if input.falsy then
    ([warnUnsupported "setVisible"], [])
  else
    ([], setToObject (getControlOne fm) (getControlMany fm) ctrlCanSetVisible input b)

/-- PrimaryControl.setDisabled (lines 1124 to 1138). -/
def setDisabled (fm : Form) (input : DInput Ctrl) (b : Bool) :
    List String × List (Option Ctrl × Bool) :=
  if input.falsy then
    ([warnUnsupported "setDisabled"], [])
  else
    ([], setToObject (getControlOne fm) (getControlMany fm) ctrlCanSetDisabled input b)

/-- addHandler bound to the attribute collection, as every attribute-level
event registrar binds it (addOnChange passes the getAttribute overloads, the
attach callback and the isAttribute guard; the operation name varies per
registrar). -/
def addHandlerAttrs (fm : Form) (op : String) (input : DInput Attr) : HTrace Attr :=
  addHandler (getAttributeOne fm) (getAttributeMany fm) attrIsAttribute op input

/-- PrimaryControl.addOnChange (lines 362 to 374). -/
def addOnChange (fm : Form) (input : DInput Attr) : HTrace Attr :=
  addHandlerAttrs fm "addOnChange" input

/-- Result of the Provider factory: a FormContext wrapper, a PrimaryControl
wrapper, or a raised Error with its message. -/
inductive ProviderResult where
  | formContextW (ctx : JSValue)
  | primaryControlW (ctx : JSValue)
  | raised (msg : String)
deriving DecidableEq, Repr

/-- The message of the Error thrown by Provider.from on an invalid
context. -/
def providerInvalidMsg (ctx : JSValue) : String :=
  "[D365 Form Scripting Framework - Provider] Invalid context provided. Provided context: " ++ ctx.render

/-- Provider.from (Provider.ts): a truthy context is wrapped as a FormContext
when isExecutionContext accepts it and as a PrimaryControl otherwise; a falsy
context makes the factory throw.  Named fromContext because Lean reserves the
word used in the source. -/
def Provider.fromContext (ctx : JSValue) : ProviderResult :=
  if ctx.falsy then
    .raised (providerInvalidMsg ctx)
  else if isExecutionContext ctx then
    .formContextW ctx
  else
    .primaryControlW ctx

/-- The scalar overload view of getAttribute coincides with the host
single-lookup accessor: attribute handles are objects, hence truthy, so the
engine's truthiness test never drops one. -/
theorem getAttributeOne_eq (fm : Form) (k : Key) :
    getAttributeOne fm k = fm.getAttrByKey k := by
  cases h : fm.getAttrByKey k <;>
    simp [getAttributeOne, getAttribute, getObject, h]

/-- The delegate overload view of getAttribute is the host filter. -/
theorem getAttributeMany_eq (fm : Form) (f : Attr → Bool) :
    getAttributeMany fm f = fm.attrs.filter f := rfl

/-- The firstname attribute of the C1 scenario. -/
def attrFirstname : Attr := ⟨"firstname", .str "Jane", ["getAttributeType"]⟩

/-- A form whose attribute collection contains exactly firstname. -/
def fmC1 : Form := ⟨[attrFirstname], []⟩

/-- Claim C1: the code evaluated at the claim's own scenario.  On a
collection containing firstname, setAttributeValue("firstname", "John")
invokes the host value applier zero times, where the claim requires exactly
one setValue call with "John"; on the missing key "ghost" it invokes the
applier once with the null placeholder of the failed lookup, where the claim
requires no write.  The guard of the scalar write branch is inverted in the
source (it fires on a falsy lookup result instead of a truthy one), so the
claim describes the documented intent and the code contradicts it. -/
theorem C1_inverted_guard_eval :
    setAttributeValue fmC1 (.key (.name "firstname")) (.str "John") = ([], [])
  ∧ setAttributeValue fmC1 (.key (.name "ghost")) (.str "X")
      = ([], [(none, .str "X")]) := by
  decide

/-- A direct-instance handle exposing no methods, so it fails every
capability guard. -/
def badAttr : Attr := ⟨"bad", .null, []⟩

/-- The empty form used for the C2 scenario. -/
def fmC2 : Form := ⟨[], []⟩

/-- Claim C2 counterexample: a direct instance failing the isAttribute guard
makes addOnChange (the handler-attachment engine) emit a warning, where the
claim requires no report from either engine. -/
theorem C2_counterexample :
    ¬ (addOnChange fmC2 (.inst badAttr)).warns = [] := by
  decide

/-- Claim C2 as amended: for a direct instance failing the capability guard,
the value-application engine performs no mutation and emits no report, while
the handler-attachment engine performs no attachment but emits exactly one
unhandled-input warning naming the operation. -/
theorem C2_amended_guard_mismatch {α V : Type}
    (getter : Key → Option α) (getterAll : (α → Bool) → List α)
    (get : Key → Option α) (getDelegate : (α → Bool) → List α)
    (isValid : α → Bool) (op : String) (v : V) (x : α)
    (h : isValid x = false) :
    setToObject getter getterAll isValid (.inst x) v = []
  ∧ addHandler get getDelegate isValid op (.inst x)
      = ⟨[], [warnUnhandled op "object"]⟩ := by
  constructor
  · simp [setToObject, setInstStep, h]
  · simp [addHandler, addInstStep, h]

/-- Witness for the amended C2 at a concrete guard-failing instance. -/
theorem C2_witness :
    setToObject (getAttributeOne fmC2) (getAttributeMany fmC2) attrIsAttribute
      (.inst badAttr) (JSValue.str "v") = []
  ∧ addHandler (getAttributeOne fmC2) (getAttributeMany fmC2) attrIsAttribute
      "addOnChange" (.inst badAttr)
      = ⟨[], [warnUnhandled "addOnChange" "object"]⟩ :=
  C2_amended_guard_mismatch _ _ _ _ _ _ _ _ (by decide)

/-- Claim C3: for every collection and name key, resolving a by-name
specifier through getObject (as getAttribute binds it) returns exactly what
the host single-lookup accessor returns, null included, and an absent
(undefined) specifier returns null immediately. -/
theorem C3_by_name_resolution (fm : Form) (x : String) :
    (getAttribute fm (.key (.name x)) =
      match fm.getAttrByKey (.name x) with
      | some a => .one a
      | none => .nullR)
  ∧ getAttribute fm .undef = .nullR := by
  constructor
  · cases h : fm.getAttrByKey (.name x) <;>
      simp [getAttribute, getObject, h]
  · rfl

/-- The one attribute of the C4 scenario collection. -/
def attrPresent : Attr := ⟨"present", .str "ok", ["getAttributeType"]⟩

/-- A form whose attribute collection contains only "present". -/
def fmC4 : Form := ⟨[attrPresent], []⟩

/-- Claim C4: resolving an array specifier maps the host lookup over the
elements in input order and drops exactly the failed (null) resolutions,
without aborting the remaining elements; on a collection holding only
"present", the array ["missing", "present"] resolves to exactly
[present]. -/
theorem C4_array_resolution (fm : Form) (ks : List Key) :
    getAttribute fm (.arr ks) = .many (ks.filterMap fm.getAttrByKey)
  ∧ getAttribute fmC4 (.arr [.name "missing", .name "present"])
      = .many [attrPresent] := by
  constructor
  · simp [getAttribute, getObject, List.filterMap_map]
  · decide

/-- Claim C5: for every attribute-bound handler registration, a scalar key
the single-lookup accessor cannot resolve attaches nothing and emits exactly
one warning built from the operation name and the unresolved key, while a
successful scalar resolution attaches exactly once to the resolved item and
emits nothing. -/
theorem C5_scalar_attach_and_report (fm : Form) (op : String) (k : Key) :
    addHandlerAttrs fm op (.key k) =
      match fm.getAttrByKey k with
      | some a => ⟨[a], []⟩
      | none => ⟨[], [warnNotFound op k]⟩ := by
  cases hk : fm.getAttrByKey k <;>
    simp [addHandlerAttrs, addHandler, addScalarStep, getAttributeOne_eq, hk]

/-- Claim C6: for every predicate specifier, the handler-attachment engine
attaches exactly to the items the host predicate-lookup returns, which are
precisely the collection members satisfying the predicate, in collection
order, and emits no report, in particular when the match set is empty. -/
theorem C6_predicate_attach (fm : Form) (op : String) (f : Attr → Bool) :
    (addHandlerAttrs fm op (.delegate f)).attached = fm.attrs.filter f
  ∧ (addHandlerAttrs fm op (.delegate f)).warns = []
  ∧ ∀ a : Attr, a ∈ (addHandlerAttrs fm op (.delegate f)).attached ↔
      (a ∈ fm.attrs ∧ f a = true) := by
  refine ⟨rfl, rfl, ?_⟩
  intro a
  simp [addHandlerAttrs, addHandler, getAttributeMany_eq, List.mem_filter]

/-- Claim C7: every capability guard of CheckTypes.ts returns false on null
and on every input whose typeof kind is not object. -/
theorem C7_guards_reject_nonobjects (v : JSValue) (h : v.isNonObject = true) :
    isAttribute v = false ∧ isTabControl v = false ∧ isControl v = false
  ∧ isStandardControl v = false ∧ isLookupControl v = false
  ∧ isGridControl v = false ∧ isIframeControl v = false
  ∧ isKbSearchControl v = false ∧ isControlCanSetVisible v = false
  ∧ isControlCanSetDisabled v = false ∧ isExecutionContext v = false := by
  cases v <;> simp_all [JSValue.isNonObject, isAttribute, isTabControl,
    isControl, isStandardControl, isLookupControl, isGridControl,
    isIframeControl, isKbSearchControl, isControlCanSetVisible,
    isControlCanSetDisabled, isExecutionContext, isObject, hasFnMethod,
    JSValue.typeofObject, JSValue.isNull]

/-- Witness for C7 at the null input. -/
theorem C7_witness :
    isAttribute .null = false ∧ isTabControl .null = false
  ∧ isControl .null = false ∧ isStandardControl .null = false
  ∧ isLookupControl .null = false ∧ isGridControl .null = false
  ∧ isIframeControl .null = false ∧ isKbSearchControl .null = false
  ∧ isControlCanSetVisible .null = false
  ∧ isControlCanSetDisabled .null = false
  ∧ isExecutionContext .null = false :=
  C7_guards_reject_nonobjects .null rfl

/-- The empty form of the C8 scenario: "ghost" does not resolve. -/
def fmC8 : Form := ⟨[], []⟩

/-- Claim C8: the Provider factory raises exactly on a falsy context and
classifies a truthy one by isExecutionContext; but the value-application
engine, evaluated at a scalar miss, invokes the host applier on the null
placeholder — a host call on null, which raises at runtime — contradicting
the claim that the dispatch engines never raise. -/
theorem C8_provider_and_engine_raise (ctx : JSValue) :
    ((∃ m, Provider.fromContext ctx = .raised m) ↔ ctx.falsy = true)
  ∧ (Provider.fromContext ctx = .formContextW ctx ↔
      (ctx.falsy = false ∧ isExecutionContext ctx = true))
  ∧ (Provider.fromContext ctx = .primaryControlW ctx ↔
      (ctx.falsy = false ∧ isExecutionContext ctx = false))
  ∧ (setAttributeValue fmC8 (.key (.name "ghost")) (.str "X")).2
      = [(none, .str "X")] := by
  refine ⟨?_, ?_, ?_, by decide⟩ <;>
    unfold Provider.fromContext <;>
    cases hf : ctx.falsy <;> cases he : isExecutionContext ctx <;> simp [hf, he]

/-- An attribute whose current value is the falsy number 0. -/
def attrCount : Attr := ⟨"count", .num 0, ["getAttributeType"]⟩

/-- A form containing the falsy-valued attribute of the C9 scenario. -/
def fmC9 : Form := ⟨[attrCount], []⟩

/-- Claim C9: when an attribute's current value is falsy but not nullish,
getAttributeValue with its scalar key returns null (the scalar branch applies
JS truthiness to the resolved value), while the same key inside an array
preserves the falsy value, since the array branch filters out only null. -/
theorem C9_falsy_value_scalar_vs_array (fm : Form) (a : Attr) (k : Key)
    (h1 : fm.getAttrByKey k = some a)
    (h2 : a.value.falsy = true)
    (h3 : a.value ≠ .null) (h4 : a.value ≠ .undef) :
    (getAttributeValue fm (.key k)).2 = .nullR
  ∧ (getAttributeValue fm (.arr [k])).2 = .many [a.value] := by
  have hres : valueResolver fm k = some a.value := by
    unfold valueResolver
    rw [h1]
    cases hv : a.value <;> simp_all
  constructor
  · unfold getAttributeValue
    cases hk : (GetInput.falsy (.key k : GetInput Attr))
    · simp [hk, getObject, hres, h2]
    · simp [hk]
  · unfold getAttributeValue
    simp [GetInput.falsy, getObject, hres]

/-- Witness for C9 at a concrete attribute holding the value 0. -/
theorem C9_witness :
    (getAttributeValue fmC9 (.key (.name "count"))).2 = .nullR
  ∧ (getAttributeValue fmC9 (.arr [.name "count"])).2 = .many [.num 0] :=
  C9_falsy_value_scalar_vs_array fmC9 attrCount (.name "count")
    (by decide) (by decide) (by decide) (by decide)

/-- Claim C10: every facade operation guarded by the falsy-input check treats
index 0 and the empty-string name as unsupported, whatever the collection
holds: it emits one unsupported-input warning (setAttributeValue's message
naming getAttributeValue, as in the source) and returns null or performs no
engine work, so ByIndex(0) is never resolved by these operations. -/
theorem C10_falsy_key_guard (fm : Form) (v : JSValue) (lvl : String) (b : Bool) :
    getAttributeValue fm (.key (.idx 0))
      = ([warnUnsupported "getAttributeValue"], .nullR)
  ∧ getAttributeValue fm (.key (.name ""))
      = ([warnUnsupported "getAttributeValue"], .nullR)
  ∧ setAttributeValue fm (.key (.idx 0)) v
      = ([warnUnsupported "getAttributeValue"], [])
  ∧ setAttributeValue fm (.key (.name "")) v
      = ([warnUnsupported "getAttributeValue"], [])
  ∧ setRequiredLevel fm (.key (.idx 0)) lvl
      = ([warnUnsupported "setRequiredLevel"], [])
  ∧ setRequiredLevel fm (.key (.name "")) lvl
      = ([warnUnsupported "setRequiredLevel"], [])
  ∧ setOptional fm (.key (.idx 0)) = ([warnUnsupported "setOptional"], [])
  ∧ setOptional fm (.key (.name "")) = ([warnUnsupported "setOptional"], [])
  ∧ setRecommended fm (.key (.idx 0)) = ([warnUnsupported "setRecommended"], [])
  ∧ setRecommended fm (.key (.name "")) = ([warnUnsupported "setRecommended"], [])
  ∧ setMandatory fm (.key (.idx 0)) = ([warnUnsupported "setMandatory"], [])
  ∧ setMandatory fm (.key (.name "")) = ([warnUnsupported "setMandatory"], [])
  ∧ setVisible fm (.key (.idx 0)) b = ([warnUnsupported "setVisible"], [])
  ∧ setVisible fm (.key (.name "")) b = ([warnUnsupported "setVisible"], [])
  ∧ setDisabled fm (.key (.idx 0)) b = ([warnUnsupported "setDisabled"], [])
  ∧ setDisabled fm (.key (.name "")) b = ([warnUnsupported "setDisabled"], []) :=
  ⟨rfl, rfl, rfl, rfl, rfl, rfl, rfl, rfl, rfl, rfl, rfl, rfl, rfl, rfl, rfl, rfl⟩

end D365
